import Mathlib

/-!
Shallow embedding of `tools/cdp_browser.py` (class `CDPBrowserManager`) from
the MediaCrawler repository, together with proofs about its cookie handling,
orchestration and cleanup logic.

External effects (HTTP calls, Playwright calls, the browser launcher) are
modelled by an environment record `Env` whose fields give the outcome of each
external call; the manager's code is translated statement by statement into
pure functions that thread the manager state (`MState`) and record the calls
they make as a list of `Event`s.
-/

namespace CDPBrowser

/-- A browser cookie as handled by the Python code: only the fields the code
reads (`name`, `domain`) matter, plus value/path to keep the record honest. -/
structure Cookie where
  name : String
  value : String
  domain : String
  path : String
deriving DecidableEq, Repr

/-- Boolean substring test on character lists, mirroring the semantics of the
Python `in` operator on strings (`sub in s`). -/
def infixB (sub : List Char) : List Char → Bool
  | [] => decide (sub = [])
  | c :: rest => sub.isPrefixOf (c :: rest) || infixB sub rest

/-- Python `sub in s` on strings. -/
def pyIn (sub s : String) : Bool := infixB sub.data s.data

/-- Python `s.lstrip(".")`: drop every leading dot. -/
def lstripDots (s : String) : String := String.mk (s.data.dropWhile (· = '.'))

/-- Python `s.endswith(t)` — used to state the specification's
"cookie domain is a suffix of the probed domain" reading. -/
def suffixB (sub s : String) : Bool := sub.data.isSuffixOf s.data

/-- Python `s.startswith(t)`. -/
def startsB (pre s : String) : Bool := pre.data.isPrefixOf s.data

/-- `urlparse(url).netloc`: the authority component, i.e. what stands between
`"://"` and the next `/`. -/
def netloc (url : String) : String :=
  match url.splitOn "://" with
  | _ :: rest :: _ => rest.takeWhile (· ≠ '/')
  | _ => ""

/-- The per-domain cookie filter of the harvest phase
(`cdp_browser.py` lines 325–328):
`[c for c in cookies if domain in c.get("domain", "") or
  c.get("domain", "").lstrip(".") in domain]`. -/
def domainCookieFilter (domain : String) (cookies : List Cookie) : List Cookie :=
  cookies.filter (fun c => pyIn domain c.domain || pyIn (lstripDots c.domain) domain)

/-- De-duplication key of a cookie (`(cookie.get("name"), cookie.get("domain"))`,
line 341). -/
def ckey (c : Cookie) : String × String := (c.name, c.domain)

/-- The de-duplication loop of lines 338–344, with the accumulated `seen` set
of keys made explicit. -/
def dedupLoop : List Cookie → List (String × String) → List Cookie
  | [], _ => []
  | c :: rest, seen =>
    if ckey c ∈ seen then dedupLoop rest seen
    else c :: dedupLoop rest (ckey c :: seen)

/-- `unique_cookies` as computed from `all_cookies` (lines 337–344). -/
def dedupCookies (l : List Cookie) : List Cookie := dedupLoop l []

/-- Insert a cookie into the `cookies_by_domain` association list under key
`d`, preserving Python dict insertion order (lines 352–357). -/
def insertGrouped (d : String) (c : Cookie) :
    List (String × List Cookie) → List (String × List Cookie)
  | [] => [(d, [c])]
  | (d0, cs) :: rest =>
    if d0 = d then (d0, cs ++ [c]) :: rest
    else (d0, cs) :: insertGrouped d c rest

/-- `cookies_by_domain` built by the loop of lines 352–357: keys appear in
order of first occurrence, each key's cookies in list order. -/
def groupByDomain (l : List Cookie) : List (String × List Cookie) :=
  l.foldl (fun acc c => insertGrouped (lstripDots c.domain) c acc) []

/-- Python exceptions that the code raises or catches, by kind. -/
inductive PyErr where
  | runtimeError (msg : String)
  | launchTimeout (secs : Nat)
  | connectError
  | timeoutException
  | httpError
  | jsonDecodeError
  | other (msg : String)
deriving DecidableEq, Repr

/-- Outcome of one `GET http://localhost:{port}/json/version` request:
either a response with a status code and a body (`none` when `.json()` would
raise, otherwise the optional `webSocketDebuggerUrl` field), or one of the
transport-level exceptions `httpx` raises. -/
inductive MetaResponse where
  | response (status : Nat) (body : Option (Option String))
  | connectError
  | timeoutException
  | httpError
  | otherError
deriving DecidableEq, Repr

/-- A target as reported by `GET http://localhost:{port}/json`. -/
structure Target where
  tid : String
  ttype : String
  url : String
deriving DecidableEq, Repr

/-- A Playwright browser context, reduced to the option fields the code sets
when creating one, plus its page count. A pre-existing context has arbitrary
field values; `new_context(**context_options)` builds one from the options
dict of lines 264–271. -/
structure Ctx where
  viewport : Option (Nat × Nat)
  acceptDownloads : Bool
  userAgent : Option String
  pages : Nat
deriving DecidableEq, Repr

/-- The Playwright `Browser` handle obtained from `connect_over_cdp`. -/
structure BrowserHandle where
  connected : Bool
  contexts : List Ctx
deriving DecidableEq, Repr

/-- The mutable fields of `CDPBrowserManager` (`__init__`, lines 29–33). -/
structure MState where
  browser : Option BrowserHandle
  browser_context : Option Ctx
  debug_port : Option Nat
deriving DecidableEq, Repr

/-- Fresh manager state, as after `__init__`. -/
def mstate0 : MState := ⟨none, none, none⟩

/-- The configuration values the module reads from `config`. -/
structure Config where
  debugPort : Nat
  customBrowserPath : String
  browserLaunchTimeout : Nat
  autoCloseBrowser : Bool
deriving DecidableEq, Repr

/-- Observable external calls made by the manager, in program order. -/
inductive Event where
  | probe (port : Nat)
  | detectPath
  | launchProcess (port : Nat)
  | waitForReady (port : Nat) (timeout : Nat)
  | wsFetch
  | connectCDP
  | reuseContext
  | proxyWarning
  | newContext
  | targetsFetch
  | openTempPage
  | closeTempPage
  | goto (url : String)
  | addCookiesEv (n : Nat)
  | addInitScript
  | closeContext
  | closeBrowser
  | terminateProcess
deriving DecidableEq, Repr

/-- Marks the events of the launch step: browser-path detection, the
`ProcessLauncher` invocation and its readiness wait. -/
def Event.isLaunchStep : Event → Bool
  | .detectPath => true
  | .launchProcess _ => true
  | .waitForReady _ _ => true
  | _ => false

/-- Outcomes of every external call the manager performs; HTTP and Playwright
navigation outcomes are functions of the request's URL so that distinct calls
may behave differently. -/
structure Env where
  initialProbe : MetaResponse
  customPathIsFile : Bool
  browserPaths : List String
  launchRaises : Bool
  waitReady : Bool
  postLaunchProbe : MetaResponse
  wsMeta : MetaResponse
  connectResult : Option BrowserHandle
  pageCookiesRaises : Bool
  newContextRaises : Bool
  targetsResp : Option (List Target)
  gotoOk : String → Bool
  jarAfter : String → List Cookie
  addCookiesOk : String → Bool
  ctxCookiesRaises : Bool
  ctxJar : List Cookie
  closeContextRaises : Bool
  closeBrowserRaises : Bool
  launcherCleanupRaises : Bool

/-- The body of the `try` in `_test_cdp_connection` (lines 117–131): may
raise; returns `true` only for a 200 response whose JSON body carries a
truthy `webSocketDebuggerUrl`. -/
def testCdpRaw (r : MetaResponse) : Except PyErr Bool :=
  match r with
  | .response status body =>
    if status = 200 then
      match body with
      | none => .error .jsonDecodeError
      | some wsUrl =>
        match wsUrl with
        | some u => if u = "" then .ok false else .ok true
        | none => .ok false
    else .ok false
  | .connectError => .error .connectError
  | .timeoutException => .error .timeoutException
  | .httpError => .error .httpError
  | .otherError => .error (.other "request failed")

/-- `_test_cdp_connection` (lines 112–137): the `try` body with its two
handlers, both of which return `False`. -/
def test_cdp_connection (r : MetaResponse) : Bool :=
  match testCdpRaw r with
  | .ok b => b
  | .error .connectError => false
  | .error .timeoutException => false
  | .error .httpError => false
  | .error _ => false

/-- `_get_browser_path` (lines 82–110): use the custom path when set and
existing, otherwise the first auto-detected path, raising when none exists. -/
def getBrowserPath (cfg : Config) (env : Env) : Except PyErr String :=
  if cfg.customBrowserPath ≠ "" ∧ env.customPathIsFile then .ok cfg.customBrowserPath
  else
    match env.browserPaths with
    | [] => .error (.runtimeError "no browser found")
    | p :: _ => .ok p

/-- `_launch_browser` (lines 139–175): spawn the process, wait for readiness
up to the configured timeout (raising the launch-timeout `RuntimeError` of
line 166 when it stays unready), then probe once more (result only logged). -/
def launchBrowser (cfg : Config) (env : Env) : Except PyErr Unit × List Event :=
  if env.launchRaises then
    (.error (.other "launch_browser failed"), [.launchProcess cfg.debugPort])
  else if env.waitReady = false then
    (.error (.launchTimeout cfg.browserLaunchTimeout),
      [.launchProcess cfg.debugPort, .waitForReady cfg.debugPort cfg.browserLaunchTimeout])
  else
    (.ok (),
      [.launchProcess cfg.debugPort, .waitForReady cfg.debugPort cfg.browserLaunchTimeout,
        .probe cfg.debugPort])

/-- `_get_browser_websocket_url` (lines 177–200): 200 plus a truthy
`webSocketDebuggerUrl` yields the URL; everything else raises. -/
def getBrowserWebSocketUrl (env : Env) : Except PyErr String :=
  match env.wsMeta with
  | .response status body =>
    if status = 200 then
      match body with
      | none => .error .jsonDecodeError
      | some wsUrl =>
        match wsUrl with
        | some u =>
          if u = "" then .error (.runtimeError "missing webSocketDebuggerUrl")
          else .ok u
        | none => .error (.runtimeError "missing webSocketDebuggerUrl")
    else .error (.runtimeError "bad http status")
  | .connectError => .error .connectError
  | .timeoutException => .error .timeoutException
  | .httpError => .error .httpError
  | .otherError => .error (.other "request failed")

/-- `_connect_via_cdp` (lines 202–224): fetch the WebSocket URL, connect over
CDP, verify the handle reports itself connected; store the handle in
`self.browser`. -/
def connectViaCDP (env : Env) (s : MState) : Except PyErr MState × List Event :=
  match getBrowserWebSocketUrl env with
  | .error e => (.error e, [.wsFetch])
  | .ok _ =>
    match env.connectResult with
    | none => (.error (.other "connect_over_cdp failed"), [.wsFetch, .connectCDP])
    | some b =>
      if b.connected then (.ok { s with browser := some b }, [.wsFetch, .connectCDP])
      else (.error (.runtimeError "CDP connection failed"), [.wsFetch, .connectCDP])

/-- The harvest loop over targets (lines 300–335): for each page-type target
with an http(s) URL whose netloc was not probed yet, open a temporary page,
navigate to the target URL (cookies are read and filtered only when the
navigation succeeds), close the page, and accumulate the filtered cookies.
The `checked` argument is the `domains_checked` set. -/
def harvestLoop (env : Env) : List Target → List String → List Cookie × List Event
  | [], _ => ([], [])
  | t :: rest, checked =>
    if t.ttype = "page" ∧ t.url ≠ "" ∧ startsB "http" t.url = true then
      let d := netloc t.url
      if d ∈ checked then harvestLoop env rest checked
      else
        let got :=
          if env.gotoOk t.url then domainCookieFilter d (env.jarAfter t.url) else []
        let res := harvestLoop env rest (d :: checked)
        (got ++ res.1, [.openTempPage, .goto t.url, .closeTempPage] ++ res.2)
    else harvestLoop env rest checked

/-- The inner `except` of the replay loop (lines 365–370): retry with the
`http://` URL; a failure of either the navigation or the cookie installation
is swallowed. -/
def replayFallback (env : Env) (d : String) (n : Nat) : List Event :=
  if env.gotoOk ("http://" ++ d) then
    [.goto ("http://" ++ d), .addCookiesEv n]
  else [.goto ("http://" ++ d)]

/-- One iteration of the replay loop (lines 360–370): navigate the shared
temporary page to `https://{domain}` and install the domain's cookies; on any
failure fall back to `http://{domain}`. `n` is the number of cookies
installed for the domain. -/
def replayDomain (env : Env) (d : String) (n : Nat) : List Event :=
  if env.gotoOk ("https://" ++ d) then
    if env.addCookiesOk ("https://" ++ d) then
      [.goto ("https://" ++ d), .addCookiesEv n]
    else [.goto ("https://" ++ d), .addCookiesEv n] ++ replayFallback env d n
  else [.goto ("https://" ++ d)] ++ replayFallback env d n

/-- The replay phase (lines 346–381): when any cookies survived
de-duplication, open ONE temporary page, run the per-domain loop over
`cookies_by_domain`, and close that page in the `finally` of line 375. -/
def replayCookies (env : Env) (unique : List Cookie) : List Event :=
  if unique = [] then []
  else
    Event.openTempPage ::
      ((groupByDomain unique).flatMap (fun g => replayDomain env g.1 g.2.length) ++
        [Event.closeTempPage])

/-- The target-listing request plus the harvest loop (lines 289–335): a
failing or non-200 `GET /json` yields no harvested cookies (the outer
`except` of line 382 swallows the transport error). -/
def harvestPhase (env : Env) : List Cookie × List Event :=
  match env.targetsResp with
  | none => ([], [])
  | some targets => harvestLoop env targets []

/-- `_create_browser_context` (lines 226–388). With an existing context the
first one is returned as is (lines 239–260); otherwise a new context is built
from the options dict, the proxy warning is emitted when a proxy was passed,
and the harvest/de-duplicate/replay pipeline runs inside the big `try` whose
failures are all swallowed (lines 382–386). -/
def createBrowserContext (env : Env) (s : MState) (hasProxy : Bool)
    (ua : Option String) : Except PyErr Ctx × List Event :=
  match s.browser with
  | none => (.error (.runtimeError "browser not connected"), [])
  | some b =>
    match b.contexts with
    | ctx :: _ => (.ok ctx, [.reuseContext])
    | [] =>
      if env.newContextRaises then
        (.error (.other "new_context failed"),
          if hasProxy then [Event.proxyWarning] else [])
      else
        (.ok { viewport := some (1920, 1080), acceptDownloads := true,
               userAgent := ua, pages := 0 },
          (if hasProxy then [Event.proxyWarning] else []) ++
            [Event.newContext, Event.targetsFetch] ++ (harvestPhase env).2 ++
            replayCookies env (dedupCookies (harvestPhase env).1))

/-- `browser_context.close()` inside `cleanup` (line 435), which may raise. -/
def closeContextOp (env : Env) : Except PyErr Unit :=
  if env.closeContextRaises then .error (.other "context close failed") else .ok ()

/-- `browser.close()` inside `cleanup` (line 447), which may raise. -/
def closeBrowserOp (env : Env) : Except PyErr Unit :=
  if env.closeBrowserRaises then .error (.other "browser close failed") else .ok ()

/-- `self.launcher.cleanup()` (line 458): terminates the launched process;
may raise, in which case the raise is caught by `cleanup`'s outer handler. -/
def launcherCleanupOp (env : Env) : Except PyErr Unit :=
  if env.launcherCleanupRaises then .error (.other "launcher cleanup failed") else .ok ()

/-- `cleanup` (lines 427–465): close the context (failure logged, the field
reset in a `finally`), close the browser (same pattern), then terminate the
process iff `AUTO_CLOSE_BROWSER` is set; the outer handler absorbs any raise
from the last step. -/
def cleanup (cfg : Config) (env : Env) (s : MState) : MState × List Event :=
  let step1 : MState × List Event :=
    match s.browser_context with
    | none => (s, [])
    | some _ =>
      match closeContextOp env with
      | .ok _ => ({ s with browser_context := none }, [.closeContext])
      | .error _ => ({ s with browser_context := none }, [.closeContext])
  let step2 : MState × List Event :=
    match step1.1.browser with
    | none => (step1.1, [])
    | some _ =>
      match closeBrowserOp env with
      | .ok _ => ({ step1.1 with browser := none }, [.closeBrowser])
      | .error _ => ({ step1.1 with browser := none }, [.closeBrowser])
  let step3 : List Event :=
    if cfg.autoCloseBrowser then
      match launcherCleanupOp env with
      | .ok _ => [Event.terminateProcess]
      | .error _ => [Event.terminateProcess]
    else []
  (step2.1, step1.2 ++ step2.2 ++ step3)

/-- Store the context produced by `_create_browser_context` on the manager
and return it (lines 69–75). -/
def finishContext (env : Env) (s : MState) (hasProxy : Bool) (ua : Option String)
    (acc : List Event) : Except PyErr Ctx × MState × List Event :=
  match createBrowserContext env s hasProxy ua with
  | (.error e, ctr) => (.error e, s, acc ++ ctr)
  | (.ok ctx, ctr) => (.ok ctx, { s with browser_context := some ctx }, acc ++ ctr)

/-- The `try` body of `launch_and_connect` (lines 46–75): set the port, probe
it, then either attach directly or detect a browser path, launch and wait,
and finally connect and resolve the context. -/
def acquireBody (cfg : Config) (env : Env) (hasProxy : Bool) (ua : Option String)
    (s0 : MState) : Except PyErr Ctx × MState × List Event :=
  let s1 : MState := { s0 with debug_port := some cfg.debugPort }
  let probeEv : List Event := [.probe cfg.debugPort]
  if test_cdp_connection env.initialProbe then
    match connectViaCDP env s1 with
    | (.error e, tr) => (.error e, s1, probeEv ++ tr)
    | (.ok s2, tr) => finishContext env s2 hasProxy ua (probeEv ++ tr)
  else
    match getBrowserPath cfg env with
    | .error e => (.error e, s1, probeEv ++ [.detectPath])
    | .ok _ =>
      match launchBrowser cfg env with
      | (.error e, ltr) => (.error e, s1, probeEv ++ [.detectPath] ++ ltr)
      | (.ok _, ltr) =>
        match connectViaCDP env s1 with
        | (.error e, tr) => (.error e, s1, probeEv ++ [.detectPath] ++ ltr ++ tr)
        | (.ok s2, tr) => finishContext env s2 hasProxy ua (probeEv ++ [.detectPath] ++ ltr ++ tr)

/-- `launch_and_connect` (lines 35–80): the `try` body, whose failure
triggers `cleanup` and then re-raises the same exception. -/
def launch_and_connect (cfg : Config) (env : Env) (hasProxy : Bool)
    (ua : Option String) (s0 : MState) : Except PyErr Ctx × MState × List Event :=
  match acquireBody cfg env hasProxy ua s0 with
  | (.ok c, s, tr) => (.ok c, s, tr)
  | (.error e, s, tr) =>
    let cl := cleanup cfg env s
    (.error e, cl.1, tr ++ cl.2)

/-- `is_connected` (lines 467–471). -/
def is_connected (s : MState) : Bool :=
  match s.browser with
  | none => false
  | some b => b.connected

/-- `get_cookies` (lines 414–425): reads the context's jar, degrading to `[]`
on a raise and when no context is held. -/
def get_cookies (env : Env) (s : MState) : List Cookie :=
  match s.browser_context with
  | none => []
  | some _ => if env.ctxCookiesRaises then [] else env.ctxJar

/-- `add_cookies` (lines 403–412): a call on the held context when there is
one, a silent no-op otherwise. -/
def add_cookies (s : MState) (cs : List Cookie) : List Event :=
  match s.browser_context with
  | none => []
  | some _ => [.addCookiesEv cs.length]

/-- `add_stealth_script` (lines 390–401): injects only when a context is held
and the script file exists. -/
def add_stealth_script (s : MState) (scriptExists : Bool) : List Event :=
  match s.browser_context with
  | none => []
  | some _ => if scriptExists then [.addInitScript] else []

/-- A concrete environment used by the closed witness/counterexample
theorems: every external call succeeds trivially and nothing is running on
the probed port. -/
def baseEnv : Env :=
  { initialProbe := .connectError
    customPathIsFile := false
    browserPaths := []
    launchRaises := false
    waitReady := false
    postLaunchProbe := .connectError
    wsMeta := .response 200 (some (some "ws://127.0.0.1:9222/devtools/browser/x"))
    connectResult := none
    pageCookiesRaises := false
    newContextRaises := false
    targetsResp := none
    gotoOk := fun _ => true
    jarAfter := fun _ => []
    addCookiesOk := fun _ => true
    ctxCookiesRaises := false
    ctxJar := []
    closeContextRaises := false
    closeBrowserRaises := false
    launcherCleanupRaises := false }

/-- A concrete configuration used by the closed theorems. -/
def baseCfg : Config :=
  { debugPort := 9222
    customBrowserPath := ""
    browserLaunchTimeout := 30
    autoCloseBrowser := false }

/-! ### Library lemmas about the string helpers -/

theorem infixB_iff (sub : List Char) (l : List Char) :
    infixB sub l = true ↔ sub <:+: l := by
  induction l with
  | nil =>
    simp [infixB, List.infix_nil]
  | cons c rest ih =>
    simp [infixB, List.infix_cons_iff, List.isPrefixOf_iff_prefix, ih]

theorem pyIn_iff (sub s : String) : pyIn sub s = true ↔ sub.data <:+: s.data := by
  simpa [pyIn] using infixB_iff sub.data s.data

theorem suffixB_iff (sub s : String) : suffixB sub s = true ↔ sub.data <:+ s.data := by
  simp [suffixB, List.isSuffixOf_iff_suffix]

/-! ### C1: the harvest-phase cookie filter -/

/-- C1 counterexample: probing domain `a.com`, the filter of lines 325–328
keeps a cookie whose domain field is `not-a.com.evil.net`, which neither
equals `a.com` nor is a suffix of it — so "kept only when the cookie domain
equals or is a suffix of the probed domain" is false. -/
theorem cookie_filter_keeps_unrelated_domain :
    domainCookieFilter "a.com" [⟨"sid", "v", "not-a.com.evil.net", "/"⟩] =
        [⟨"sid", "v", "not-a.com.evil.net", "/"⟩] ∧
      ¬ (("not-a.com.evil.net" : String) = "a.com" ∨
          ("not-a.com.evil.net" : String).data <:+ ("a.com" : String).data) := by
  constructor
  · decide
  · decide

/-- C1 (amended): a cookie read from the temporary page's context is kept for
probed domain `d` iff `d` occurs as a substring of the cookie's domain field,
or the cookie's domain field with its leading dots stripped occurs as a
substring of `d` (Python `in`, not an equality-or-suffix test). -/
theorem cookie_filter_membership (d : String) (cookies : List Cookie) (c : Cookie) :
    c ∈ domainCookieFilter d cookies ↔
      c ∈ cookies ∧
        (d.data <:+: c.domain.data ∨ (lstripDots c.domain).data <:+: d.data) := by
  simp [domainCookieFilter, List.mem_filter, pyIn_iff]

/-- Witness for `cookie_filter_membership` at a concrete cookie and domain. -/
theorem cookie_filter_membership_witness :
    (⟨"sid", "v", ".a.com", "/"⟩ : Cookie) ∈
      domainCookieFilter "x.a.com" [⟨"sid", "v", ".a.com", "/"⟩] := by
  exact (cookie_filter_membership "x.a.com" [⟨"sid", "v", ".a.com", "/"⟩]
    ⟨"sid", "v", ".a.com", "/"⟩).mpr (by decide)

/-! ### C5: de-duplication by `(name, domain)` -/

theorem dedupLoop_keys_not_seen {l : List Cookie} {seen : List (String × String)} :
    ∀ c ∈ dedupLoop l seen, ckey c ∉ seen := by
  induction l generalizing seen with
  | nil => simp [dedupLoop]
  | cons a rest ih =>
    intro c hc
    rw [dedupLoop] at hc
    by_cases hk : ckey a ∈ seen
    · simp only [if_pos hk] at hc
      exact ih c hc
    · simp only [if_neg hk] at hc
      rcases List.mem_cons.mp hc with h | h
      · subst h; exact hk
      · intro hmem
        exact ih c h (List.mem_cons_of_mem _ hmem)

theorem mem_dedupLoop_key {l : List Cookie} {seen : List (String × String)}
    {k : String × String} :
    k ∈ (dedupLoop l seen).map ckey ↔ k ∈ l.map ckey ∧ k ∉ seen := by
  induction l generalizing seen with
  | nil => simp [dedupLoop]
  | cons a rest ih =>
    rw [dedupLoop]
    by_cases hk : ckey a ∈ seen
    · rw [if_pos hk]
      simp only [List.map_cons, List.mem_cons, ih]
      constructor
      · tauto
      · rintro ⟨hm | hm, hns⟩
        · exact absurd (hm ▸ hk) hns
        · exact ⟨hm, hns⟩
    · rw [if_neg hk]
      simp only [List.map_cons, List.mem_cons, ih, List.mem_cons]
      constructor
      · rintro (h | ⟨hm, hns⟩)
        · exact ⟨Or.inl h, h ▸ hk⟩
        · exact ⟨Or.inr hm, fun hs => hns (Or.inr hs)⟩
      · rintro ⟨hm | hm, hns⟩
        · exact Or.inl hm
        · by_cases hka : k = ckey a
          · exact Or.inl hka
          · exact Or.inr ⟨hm, fun hs => hs.elim hka hns⟩

theorem dedupLoop_keys_nodup {l : List Cookie} {seen : List (String × String)} :
    ((dedupLoop l seen).map ckey).Nodup := by
  induction l generalizing seen with
  | nil => simp [dedupLoop]
  | cons a rest ih =>
    rw [dedupLoop]
    by_cases hk : ckey a ∈ seen
    · rw [if_pos hk]; exact ih
    · rw [if_neg hk]
      simp only [List.map_cons, List.nodup_cons]
      refine ⟨?_, ih⟩
      intro hmem
      have := mem_dedupLoop_key.mp hmem
      exact this.2 (List.mem_cons_self _ _)

theorem dedupLoop_sublist {l : List Cookie} {seen : List (String × String)} :
    (dedupLoop l seen).Sublist l := by
  induction l generalizing seen with
  | nil => simp [dedupLoop]
  | cons a rest ih =>
    rw [dedupLoop]
    by_cases hk : ckey a ∈ seen
    · rw [if_pos hk]; exact (ih).cons a
    · rw [if_neg hk]; exact (ih).cons₂ a

theorem dedupLoop_first_seen {l : List Cookie} {seen : List (String × String)}
    {c : Cookie} (hc : c ∈ dedupLoop l seen) :
    l.find? (fun x => decide (ckey x = ckey c)) = some c := by
  induction l generalizing seen with
  | nil => simp [dedupLoop] at hc
  | cons a rest ih =>
    rw [dedupLoop] at hc
    by_cases hk : ckey a ∈ seen
    · rw [if_pos hk] at hc
      have hne : ckey a ≠ ckey c := by
        intro he
        exact dedupLoop_keys_not_seen c hc (he ▸ hk)
      rw [List.find?_cons]
      simp only [decide_eq_true_eq, hne, decide_False]
      exact ih hc
    · rw [if_neg hk] at hc
      rcases List.mem_cons.mp hc with h | h
      · subst h
        rw [List.find?_cons]
        simp
      · have hns := dedupLoop_keys_not_seen c h
        have hne : ckey a ≠ ckey c := by
          intro he
          exact hns (he ▸ List.mem_cons_self _ _)
        rw [List.find?_cons]
        simp only [decide_eq_true_eq, hne, decide_False]
        exact ih h

theorem dedupLoop_stable {l : List Cookie} {seen : List (String × String)}
    (h1 : (l.map ckey).Nodup) (h2 : ∀ k ∈ l.map ckey, k ∉ seen) :
    dedupLoop l seen = l := by
  induction l generalizing seen with
  | nil => rfl
  | cons a rest ih =>
    rw [dedupLoop]
    have hka : ckey a ∉ seen := h2 _ (by simp)
    rw [if_neg hka]
    simp only [List.map_cons, List.nodup_cons] at h1
    congr 1
    refine ih h1.2 ?_
    intro k hk hmem
    rcases List.mem_cons.mp hmem with h | h
    · exact h1.1 (h ▸ hk)
    · exact h2 k (List.mem_cons_of_mem _ hk) h

/-- C5: de-duplication is keyed on `(name, domain)` with first-seen wins: the
result is a sublist of the input, every kept cookie is the first occurrence
of its key, every input key survives, the number of kept cookies equals the
number of distinct keys, and de-duplicating twice equals de-duplicating
once. -/
theorem cookie_dedup_spec (l : List Cookie) :
    (dedupCookies l).Sublist l ∧
      (∀ c ∈ dedupCookies l, l.find? (fun x => decide (ckey x = ckey c)) = some c) ∧
      (∀ c ∈ l, ∃ c2 ∈ dedupCookies l, ckey c2 = ckey c) ∧
      (dedupCookies l).length = (l.map ckey).toFinset.card ∧
      dedupCookies (dedupCookies l) = dedupCookies l := by
  refine ⟨dedupLoop_sublist, ?_, ?_, ?_, ?_⟩
  · intro c hc
    exact dedupLoop_first_seen hc
  · intro c hc
    have : ckey c ∈ (dedupLoop l []).map ckey := by
      rw [mem_dedupLoop_key]
      exact ⟨List.mem_map_of_mem _ hc, List.not_mem_nil _⟩
    rcases List.mem_map.mp this with ⟨c2, hc2, he⟩
    exact ⟨c2, hc2, he⟩
  · have hnodup : ((dedupCookies l).map ckey).Nodup := dedupLoop_keys_nodup
    have hsame : ((dedupCookies l).map ckey).toFinset = (l.map ckey).toFinset := by
      apply Finset.ext
      intro k
      simp only [List.mem_toFinset]
      rw [dedupCookies, mem_dedupLoop_key]
      simp
    calc (dedupCookies l).length
        = ((dedupCookies l).map ckey).length := (List.length_map _ _).symm
      _ = ((dedupCookies l).map ckey).toFinset.card :=
          (List.toFinset_card_of_nodup hnodup).symm
      _ = (l.map ckey).toFinset.card := by rw [hsame]
  · apply dedupLoop_stable dedupLoop_keys_nodup
    intro k hk
    exact List.not_mem_nil k

/-- Witness for `cookie_dedup_spec`: three cookies with two distinct keys
de-duplicate to two, the first occurrence of the duplicated key wins, and a
second pass changes nothing. -/
theorem cookie_dedup_spec_witness :
    (dedupCookies [⟨"a", "1", "d", "/"⟩, ⟨"a", "2", "d", "/"⟩, ⟨"b", "1", "d", "/"⟩]).length = 2 ∧
      dedupCookies (dedupCookies [⟨"a", "1", "d", "/"⟩, ⟨"a", "2", "d", "/"⟩, ⟨"b", "1", "d", "/"⟩]) =
        dedupCookies [⟨"a", "1", "d", "/"⟩, ⟨"a", "2", "d", "/"⟩, ⟨"b", "1", "d", "/"⟩] := by
  have h := cookie_dedup_spec [⟨"a", "1", "d", "/"⟩, ⟨"a", "2", "d", "/"⟩, ⟨"b", "1", "d", "/"⟩]
  refine ⟨?_, h.2.2.2.2⟩
  rw [h.2.2.2.1]
  decide

/-! ### C8: the readiness probe -/

/-- C8: `_test_cdp_connection` returns `true` exactly for a 200 response
whose JSON body carries a non-empty `webSocketDebuggerUrl`, and every raise
of its request body (transport errors and any other exception) is absorbed
into `false`. -/
theorem probe_result_spec (r : MetaResponse) :
    (test_cdp_connection r = true ↔
        ∃ u, r = .response 200 (some (some u)) ∧ u ≠ "") ∧
      (∀ e, testCdpRaw r = .error e → test_cdp_connection r = false) := by
  constructor
  · cases r with
    | response status body =>
      by_cases hs : status = 200
      · subst hs
        match body with
        | none => simp [test_cdp_connection, testCdpRaw]
        | some none => simp [test_cdp_connection, testCdpRaw]
        | some (some u) =>
          by_cases hu : u = ""
          · subst hu; simp [test_cdp_connection, testCdpRaw]
          · simp [test_cdp_connection, testCdpRaw, hu]
      · simp [test_cdp_connection, testCdpRaw, hs]
    | connectError => simp [test_cdp_connection, testCdpRaw]
    | timeoutException => simp [test_cdp_connection, testCdpRaw]
    | httpError => simp [test_cdp_connection, testCdpRaw]
    | otherError => simp [test_cdp_connection, testCdpRaw]
  · intro e he
    rw [test_cdp_connection, he]
    cases e <;> rfl

/-- Witness for `probe_result_spec`: a connection-refused probe returns
`false`, and a well-formed 200 response returns `true`. -/
theorem probe_result_spec_witness :
    test_cdp_connection MetaResponse.connectError = false ∧
      test_cdp_connection (.response 200 (some (some "ws://h/devtools"))) = true := by
  constructor
  · exact (probe_result_spec MetaResponse.connectError).2 PyErr.connectError rfl
  · exact (probe_result_spec (.response 200 (some (some "ws://h/devtools")))).1.mpr
      ⟨"ws://h/devtools", rfl, by decide⟩

/-! ### Cleanup lemmas (shared by several claims) -/

theorem cleanup_state (cfg : Config) (env : Env) (s : MState) :
    (cleanup cfg env s).1 =
      { browser := none, browser_context := none, debug_port := s.debug_port } := by
  rcases s with ⟨b, bc, dp⟩
  cases bc <;> cases b <;>
    simp [cleanup, closeContextOp, closeBrowserOp, launcherCleanupOp] <;>
    split_ifs <;> rfl

theorem cleanup_trace (cfg : Config) (env : Env) (s : MState) :
    (cleanup cfg env s).2 =
      (if s.browser_context.isSome then [Event.closeContext] else []) ++
        (if s.browser.isSome then [Event.closeBrowser] else []) ++
        (if cfg.autoCloseBrowser then [Event.terminateProcess] else []) := by
  rcases s with ⟨b, bc, dp⟩
  cases bc <;> cases b <;>
    simp [cleanup, closeContextOp, closeBrowserOp, launcherCleanupOp] <;>
    split_ifs <;> rfl

theorem cleanup_terminate_mem (cfg : Config) (env : Env) (s : MState) :
    Event.terminateProcess ∈ (cleanup cfg env s).2 ↔ cfg.autoCloseBrowser = true := by
  rw [cleanup_trace]
  rcases hbc : s.browser_context <;> rcases hb : s.browser <;>
    cases hac : cfg.autoCloseBrowser <;> simp

theorem cleanup_events_shape (cfg : Config) (env : Env) (s : MState) :
    ∀ e ∈ (cleanup cfg env s).2,
      e = Event.closeContext ∨ e = Event.closeBrowser ∨ e = Event.terminateProcess := by
  intro e he
  rw [cleanup_trace] at he
  simp only [List.mem_append] at he
  rcases he with (h | h) | h
  · left; split at h <;> simp_all
  · right; left; split at h <;> simp_all
  · right; right; split at h <;> simp_all

/-! ### C7: cleanup never raises, is ordered, idempotent -/

/-- C7: `cleanup` is total for every environment, its final state and trace
do not depend on which close steps raise (each step runs regardless of the
previous one's failure, nothing propagates), it closes the context first and
the browser next, terminates the process exactly when `AUTO_CLOSE_BROWSER`
is set, and a repeated call leaves the state unchanged and re-attempts no
close. -/
theorem cleanup_spec (cfg : Config) (env env2 : Env) (s : MState) :
    (cleanup cfg env s).1.browser_context = none ∧
      (cleanup cfg env s).1.browser = none ∧
      cleanup cfg env s = cleanup cfg env2 s ∧
      (cleanup cfg env s).2 =
        (if s.browser_context.isSome then [Event.closeContext] else []) ++
          (if s.browser.isSome then [Event.closeBrowser] else []) ++
          (if cfg.autoCloseBrowser then [Event.terminateProcess] else []) ∧
      (Event.terminateProcess ∈ (cleanup cfg env s).2 ↔ cfg.autoCloseBrowser = true) ∧
      (cleanup cfg env (cleanup cfg env s).1).1 = (cleanup cfg env s).1 ∧
      (cleanup cfg env (cleanup cfg env s).1).2 =
        (if cfg.autoCloseBrowser then [Event.terminateProcess] else []) := by
  refine ⟨by rw [cleanup_state], by rw [cleanup_state], ?_, cleanup_trace cfg env s,
    cleanup_terminate_mem cfg env s, ?_, ?_⟩
  · have h1 := cleanup_state cfg env s
    have h2 := cleanup_state cfg env2 s
    have h3 := cleanup_trace cfg env s
    have h4 := cleanup_trace cfg env2 s
    calc cleanup cfg env s = ((cleanup cfg env s).1, (cleanup cfg env s).2) := rfl
      _ = ((cleanup cfg env2 s).1, (cleanup cfg env2 s).2) := by
          rw [h1, h2, h3, h4]
      _ = cleanup cfg env2 s := rfl
  · rw [cleanup_state cfg env s, cleanup_state]
  · rw [cleanup_state cfg env s, cleanup_trace]
    simp

/-- Witness for `cleanup_spec`: a fully initialized manager cleaned up under
an environment where both close calls raise still ends with both fields
cleared and the process kept alive (flag unset). -/
theorem cleanup_spec_witness :
    (cleanup baseCfg { baseEnv with closeContextRaises := true, closeBrowserRaises := true }
        ⟨some ⟨true, []⟩, some ⟨none, true, none, 0⟩, some 9222⟩).1.browser_context = none ∧
      Event.terminateProcess ∉
        (cleanup baseCfg { baseEnv with closeContextRaises := true, closeBrowserRaises := true }
          ⟨some ⟨true, []⟩, some ⟨none, true, none, 0⟩, some 9222⟩).2 := by
  have h := cleanup_spec baseCfg
    { baseEnv with closeContextRaises := true, closeBrowserRaises := true } baseEnv
    ⟨some ⟨true, []⟩, some ⟨none, true, none, 0⟩, some 9222⟩
  refine ⟨h.1, ?_⟩
  intro hmem
  have := (h.2.2.2.2.1).mp hmem
  simp [baseCfg] at this

/-! ### C10: post-cleanup state and the degraded accessors -/

/-- C10: after any `cleanup` call — including ones where closing the context
or the browser raised — both handle fields are `None`, `is_connected` is
false, `get_cookies` returns the empty list, and `add_cookies` /
`add_stealth_script` perform no external call. -/
theorem cleanup_postconditions (cfg : Config) (env : Env) (s : MState)
    (cs : List Cookie) (se : Bool) :
    (cleanup cfg env s).1.browser_context = none ∧
      (cleanup cfg env s).1.browser = none ∧
      is_connected (cleanup cfg env s).1 = false ∧
      get_cookies env (cleanup cfg env s).1 = [] ∧
      add_cookies (cleanup cfg env s).1 cs = [] ∧
      add_stealth_script (cleanup cfg env s).1 se = [] := by
  rw [cleanup_state]
  exact ⟨rfl, rfl, rfl, rfl, rfl, rfl⟩

/-- Witness for `cleanup_postconditions` on a live state under an environment
whose close calls raise. -/
theorem cleanup_postconditions_witness :
    is_connected (cleanup baseCfg
        { baseEnv with closeContextRaises := true, closeBrowserRaises := true }
        ⟨some ⟨true, []⟩, some ⟨none, true, none, 3⟩, some 9222⟩).1 = false := by
  exact (cleanup_postconditions baseCfg
    { baseEnv with closeContextRaises := true, closeBrowserRaises := true }
    ⟨some ⟨true, []⟩, some ⟨none, true, none, 3⟩, some 9222⟩ [] false).2.2.1

/-! ### C2: the cookie replay phase -/

theorem replayDomain_events (env : Env) (d : String) (n : Nat) :
    ∀ e ∈ replayDomain env d n,
      (∃ u, e = Event.goto u) ∨ (∃ m, e = Event.addCookiesEv m) := by
  intro e he
  unfold replayDomain replayFallback at he
  split_ifs at he <;> simp at he <;> aesop

theorem replayDomain_mem_goto_https (env : Env) (d : String) (n : Nat) :
    Event.goto ("https://" ++ d) ∈ replayDomain env d n := by
  unfold replayDomain replayFallback
  split_ifs <;> simp

theorem replayDomain_mem_goto_http (env : Env) (d : String) (n : Nat)
    (h : env.gotoOk ("https://" ++ d) = false) :
    Event.goto ("http://" ++ d) ∈ replayDomain env d n := by
  unfold replayDomain replayFallback
  rw [h]
  simp only [Bool.false_eq_true, if_false]
  split_ifs <;> simp

/-- C2 counterexample: a merged cookie set covering the two domains `a.com`
and `b.com` makes the replay phase open ONE temporary page, navigate it for
both domains in turn, and close it once at the very end — the page is
neither opened per domain nor closed before the next domain is processed. -/
theorem replay_single_page_counterexample :
    (groupByDomain [⟨"a", "1", "a.com", "/"⟩, ⟨"b", "1", "b.com", "/"⟩]).length = 2 ∧
      replayCookies baseEnv [⟨"a", "1", "a.com", "/"⟩, ⟨"b", "1", "b.com", "/"⟩] =
        [Event.openTempPage, Event.goto "https://a.com", Event.addCookiesEv 1,
          Event.goto "https://b.com", Event.addCookiesEv 1, Event.closeTempPage] ∧
      (replayCookies baseEnv [⟨"a", "1", "a.com", "/"⟩, ⟨"b", "1", "b.com", "/"⟩]).count
          Event.openTempPage = 1 := by
  refine ⟨by decide, by decide, by decide⟩

/-- C2 (amended): for a non-empty merged cookie set the replay phase opens
exactly one temporary page shared by all domains, navigates it to
`https://{domain}` for every domain of the grouped set (falling back to
`http://{domain}` when the secure navigation fails), and closes that single
page unconditionally once, after the last domain — in-between events are only
navigations and cookie installations. -/
theorem replay_shared_page_spec (env : Env) (unique : List Cookie)
    (h : unique ≠ []) :
    ∃ mid,
      replayCookies env unique = Event.openTempPage :: (mid ++ [Event.closeTempPage]) ∧
        Event.openTempPage ∉ mid ∧ Event.closeTempPage ∉ mid ∧
        (replayCookies env unique).count Event.openTempPage = 1 ∧
        (replayCookies env unique).count Event.closeTempPage = 1 ∧
        (∀ g ∈ groupByDomain unique,
          Event.goto ("https://" ++ g.1) ∈ mid ∧
            (env.gotoOk ("https://" ++ g.1) = false →
              Event.goto ("http://" ++ g.1) ∈ mid)) := by
  refine ⟨(groupByDomain unique).flatMap (fun g => replayDomain env g.1 g.2.length),
    ?_, ?_, ?_, ?_, ?_, ?_⟩
  · rw [replayCookies, if_neg h]
  · intro hmem
    rcases List.mem_flatMap.mp hmem with ⟨g, _, hin⟩
    rcases replayDomain_events env g.1 g.2.length _ hin with ⟨u, hu⟩ | ⟨m, hm⟩ <;>
      simp_all
  · intro hmem
    rcases List.mem_flatMap.mp hmem with ⟨g, _, hin⟩
    rcases replayDomain_events env g.1 g.2.length _ hin with ⟨u, hu⟩ | ⟨m, hm⟩ <;>
      simp_all
  · rw [replayCookies, if_neg h]
    rw [List.count_cons, List.count_append]
    have h0 : ((groupByDomain unique).flatMap
        (fun g => replayDomain env g.1 g.2.length)).count Event.openTempPage = 0 := by
      rw [List.count_eq_zero]
      intro hmem
      rcases List.mem_flatMap.mp hmem with ⟨g, _, hin⟩
      rcases replayDomain_events env g.1 g.2.length _ hin with ⟨u, hu⟩ | ⟨m, hm⟩ <;>
        simp_all
    rw [h0]
    decide
  · rw [replayCookies, if_neg h]
    rw [List.count_cons, List.count_append]
    have h0 : ((groupByDomain unique).flatMap
        (fun g => replayDomain env g.1 g.2.length)).count Event.closeTempPage = 0 := by
      rw [List.count_eq_zero]
      intro hmem
      rcases List.mem_flatMap.mp hmem with ⟨g, _, hin⟩
      rcases replayDomain_events env g.1 g.2.length _ hin with ⟨u, hu⟩ | ⟨m, hm⟩ <;>
        simp_all
    rw [h0]
    decide
  · intro g hg
    refine ⟨?_, ?_⟩
    · exact List.mem_flatMap.mpr ⟨g, hg, replayDomain_mem_goto_https env g.1 g.2.length⟩
    · intro hfail
      exact List.mem_flatMap.mpr
        ⟨g, hg, replayDomain_mem_goto_http env g.1 g.2.length hfail⟩

/-- Witness for `replay_shared_page_spec` on a one-domain merged set. -/
theorem replay_shared_page_spec_witness :
    (replayCookies baseEnv [⟨"a", "1", "a.com", "/"⟩]).count Event.openTempPage = 1 := by
  obtain ⟨mid, _, _, _, hc, _, _⟩ :=
    replay_shared_page_spec baseEnv [⟨"a", "1", "a.com", "/"⟩] (by decide)
  exact hc

/-! ### C9: context resolution reuses the first existing context untouched -/

/-- C9: when the connected browser already exposes at least one context,
`_create_browser_context` returns the first one exactly as reported — its
viewport, user-agent and download fields untouched by the supplied options —
and emits neither a context creation nor a proxy warning. -/
theorem resolve_reuses_first_context (env : Env) (s : MState) (b : BrowserHandle)
    (ctx : Ctx) (rest : List Ctx) (hasProxy : Bool) (ua : Option String)
    (hb : s.browser = some b) (hc : b.contexts = ctx :: rest) :
    createBrowserContext env s hasProxy ua = (.ok ctx, [Event.reuseContext]) ∧
      Event.newContext ∉ (createBrowserContext env s hasProxy ua).2 ∧
      Event.proxyWarning ∉ (createBrowserContext env s hasProxy ua).2 := by
  have h : createBrowserContext env s hasProxy ua = (.ok ctx, [Event.reuseContext]) := by
    simp [createBrowserContext, hb, hc]
  refine ⟨h, ?_, ?_⟩ <;> rw [h] <;> simp

/-- Witness for `resolve_reuses_first_context`: a pre-existing context with
its own viewport and user agent is returned unmodified even though a proxy
and a fresh user agent were supplied. -/
theorem resolve_reuses_first_context_witness :
    createBrowserContext baseEnv
        ⟨some ⟨true, [⟨none, false, some "olduas", 3⟩]⟩, none, some 9222⟩ true (some "newuas") =
      (.ok ⟨none, false, some "olduas", 3⟩, [Event.reuseContext]) := by
  exact (resolve_reuses_first_context baseEnv
    ⟨some ⟨true, [⟨none, false, some "olduas", 3⟩]⟩, none, some 9222⟩
    ⟨true, [⟨none, false, some "olduas", 3⟩]⟩ ⟨none, false, some "olduas", 3⟩ []
    true (some "newuas") rfl rfl).1

/-! ### Trace-shape lemmas for the orchestrator -/

theorem connectViaCDP_trace (env : Env) (s : MState) :
    (connectViaCDP env s).2 = [Event.wsFetch] ∨
      (connectViaCDP env s).2 = [Event.wsFetch, Event.connectCDP] := by
  unfold connectViaCDP
  cases h : getBrowserWebSocketUrl env with
  | error e => simp
  | ok u =>
    cases hr : env.connectResult with
    | none => simp
    | some b => by_cases hb : b.connected <;> simp [hb]

theorem harvestLoop_cons_trace (env : Env) (t : Target) (rest : List Target)
    (checked : List String) :
    (harvestLoop env (t :: rest) checked).2 =
      if t.ttype = "page" ∧ t.url ≠ "" ∧ startsB "http" t.url = true then
        (if netloc t.url ∈ checked then (harvestLoop env rest checked).2
          else
            [Event.openTempPage, Event.goto t.url, Event.closeTempPage] ++
              (harvestLoop env rest (netloc t.url :: checked)).2)
      else (harvestLoop env rest checked).2 := by
  simp only [harvestLoop]
  split_ifs <;> rfl

theorem harvestLoop_events (env : Env) (ts : List Target) (checked : List String) :
    ∀ e ∈ (harvestLoop env ts checked).2,
      e = Event.openTempPage ∨ (∃ u, e = Event.goto u) ∨ e = Event.closeTempPage := by
  induction ts generalizing checked with
  | nil => simp [harvestLoop]
  | cons t rest ih =>
    intro e he
    rw [harvestLoop_cons_trace] at he
    split_ifs at he with h1 h2
    · exact ih checked e he
    · rcases List.mem_append.mp he with hin | hin
      · simp only [List.mem_cons, List.not_mem_nil, or_false] at hin
        rcases hin with h | h | h
        · exact Or.inl h
        · exact Or.inr (Or.inl ⟨_, h⟩)
        · exact Or.inr (Or.inr h)
      · exact ih _ e hin
    · exact ih checked e he

theorem replayCookies_events (env : Env) (unique : List Cookie) :
    ∀ e ∈ replayCookies env unique,
      e = Event.openTempPage ∨ (∃ u, e = Event.goto u) ∨
        (∃ m, e = Event.addCookiesEv m) ∨ e = Event.closeTempPage := by
  intro e he
  rw [replayCookies] at he
  split_ifs at he with h
  · exact absurd he (List.not_mem_nil e)
  · simp only [List.mem_cons, List.mem_append] at he
    rcases he with h1 | h1 | h1
    · exact Or.inl h1
    · rcases List.mem_flatMap.mp h1 with ⟨g, _, hin⟩
      rcases replayDomain_events env g.1 g.2.length e hin with ⟨u, hu⟩ | ⟨m, hm⟩
      · exact Or.inr (Or.inl ⟨u, hu⟩)
      · exact Or.inr (Or.inr (Or.inl ⟨m, hm⟩))
    · simp at h1
      exact Or.inr (Or.inr (Or.inr h1))

theorem harvestPhase_events (env : Env) :
    ∀ e ∈ (harvestPhase env).2,
      e = Event.openTempPage ∨ (∃ u, e = Event.goto u) ∨ e = Event.closeTempPage := by
  intro e he
  cases ht : env.targetsResp with
  | none =>
    simp only [harvestPhase, ht] at he
    exact absurd he (List.not_mem_nil e)
  | some targets =>
    simp only [harvestPhase, ht] at he
    exact harvestLoop_events env targets [] e he

theorem createBrowserContext_no_launch (env : Env) (s : MState) (hasProxy : Bool)
    (ua : Option String) :
    ∀ e ∈ (createBrowserContext env s hasProxy ua).2, e.isLaunchStep = false := by
  intro e he
  cases hb : s.browser with
  | none =>
    simp only [createBrowserContext, hb] at he
    exact absurd he (List.not_mem_nil e)
  | some b =>
    cases hc : b.contexts with
    | cons ctx rest =>
      simp only [createBrowserContext, hb, hc] at he
      simp only [List.mem_singleton] at he
      simp [he, Event.isLaunchStep]
    | nil =>
      simp only [createBrowserContext, hb, hc] at he
      split_ifs at he with hnc hpx hpx
      · simp only [List.mem_singleton] at he
        simp [he, Event.isLaunchStep]
      · exact absurd he (List.not_mem_nil e)
      · simp only [List.mem_append, List.mem_cons, List.mem_singleton,
          List.not_mem_nil, or_false] at he
        rcases he with ((h | h | h) | hh) | hr
        · simp [h, Event.isLaunchStep]
        · simp [h, Event.isLaunchStep]
        · simp [h, Event.isLaunchStep]
        · rcases harvestPhase_events env e hh with h | ⟨u, h⟩ | h <;>
            simp [h, Event.isLaunchStep]
        · rcases replayCookies_events env _ e hr with h | ⟨u, h⟩ | ⟨m, h⟩ | h <;>
            simp [h, Event.isLaunchStep]
      · simp only [List.mem_append, List.mem_cons, List.mem_singleton,
          List.not_mem_nil, or_false, false_or] at he
        rcases he with ((h | h) | hh) | hr
        · simp [h, Event.isLaunchStep]
        · simp [h, Event.isLaunchStep]
        · rcases harvestPhase_events env e hh with h | ⟨u, h⟩ | h <;>
            simp [h, Event.isLaunchStep]
        · rcases replayCookies_events env _ e hr with h | ⟨u, h⟩ | ⟨m, h⟩ | h <;>
            simp [h, Event.isLaunchStep]

theorem finishContext_result (env : Env) (s : MState) (hasProxy : Bool)
    (ua : Option String) (acc : List Event) :
    (finishContext env s hasProxy ua acc).1 = (createBrowserContext env s hasProxy ua).1 ∧
      (finishContext env s hasProxy ua acc).2.2 =
        acc ++ (createBrowserContext env s hasProxy ua).2 := by
  unfold finishContext
  rcases h : createBrowserContext env s hasProxy ua with ⟨res, tr⟩
  cases res <;> simp

/-! ### C4: a positive initial probe skips the launch step entirely -/

theorem acquireBody_attach_shape (cfg : Config) (env : Env) (hasProxy : Bool)
    (ua : Option String) (s0 : MState)
    (h : test_cdp_connection env.initialProbe = true) :
    ∃ rest, (acquireBody cfg env hasProxy ua s0).2.2 =
        Event.probe cfg.debugPort :: Event.wsFetch :: rest ∧
      ∀ e ∈ rest, e.isLaunchStep = false := by
  simp only [acquireBody]
  rw [if_pos h]
  rcases hc : connectViaCDP env { s0 with debug_port := some cfg.debugPort } with ⟨res, tr⟩
  have hsh := connectViaCDP_trace env { s0 with debug_port := some cfg.debugPort }
  rw [hc] at hsh
  cases res with
  | error e =>
    rcases hsh with h1 | h1 <;> subst h1
    · exact ⟨[], rfl, by simp⟩
    · exact ⟨[Event.connectCDP], rfl, by simp [Event.isLaunchStep]⟩
  | ok s2 =>
    have hf := finishContext_result env s2 hasProxy ua
      ([Event.probe cfg.debugPort] ++ tr)
    rcases hsh with h1 | h1 <;> subst h1
    · refine ⟨(createBrowserContext env s2 hasProxy ua).2, ?_, ?_⟩
      · rw [hf.2]; rfl
      · exact createBrowserContext_no_launch env s2 hasProxy ua
    · refine ⟨Event.connectCDP :: (createBrowserContext env s2 hasProxy ua).2, ?_, ?_⟩
      · rw [hf.2]; rfl
      · intro e he
        rcases List.mem_cons.mp he with h2 | h2
        · simp [h2, Event.isLaunchStep]
        · exact createBrowserContext_no_launch env s2 hasProxy ua e h2

/-- C4: when the initial readiness probe reports a browser already running on
the configured port, the launch step is never taken — no browser-path
detection, no `ProcessLauncher` invocation, no readiness wait anywhere in the
run — and the manager proceeds directly from the probe to the CDP
connection's WebSocket fetch. -/
theorem attach_skips_launch (cfg : Config) (env : Env) (hasProxy : Bool)
    (ua : Option String) (s0 : MState)
    (h : test_cdp_connection env.initialProbe = true) :
    (∀ e ∈ (launch_and_connect cfg env hasProxy ua s0).2.2, e.isLaunchStep = false) ∧
      ∃ rest, (launch_and_connect cfg env hasProxy ua s0).2.2 =
        Event.probe cfg.debugPort :: Event.wsFetch :: rest := by
  obtain ⟨rest, htr, hrest⟩ := acquireBody_attach_shape cfg env hasProxy ua s0 h
  unfold launch_and_connect
  rcases hb : acquireBody cfg env hasProxy ua s0 with ⟨res, s1, tr⟩
  rw [hb] at htr
  simp only at htr
  cases res with
  | ok c =>
    subst htr
    refine ⟨?_, rest, rfl⟩
    intro e he
    rcases List.mem_cons.mp he with h1 | he2
    · simp [h1, Event.isLaunchStep]
    · rcases List.mem_cons.mp he2 with h1 | he3
      · simp [h1, Event.isLaunchStep]
      · exact hrest e he3
  | error e =>
    subst htr
    refine ⟨?_, rest ++ (cleanup cfg env s1).2, by simp⟩
    intro ev hev
    simp only [List.cons_append, List.mem_cons, List.mem_append] at hev
    rcases hev with h1 | h1 | h1 | h1
    · simp [h1, Event.isLaunchStep]
    · simp [h1, Event.isLaunchStep]
    · exact hrest ev h1
    · rcases cleanup_events_shape cfg env s1 ev h1 with h2 | h2 | h2 <;>
        simp [h2, Event.isLaunchStep]

/-- Witness for `attach_skips_launch`: with a browser already answering on
port 9222 the recorded run starts with the probe and the WebSocket fetch. -/
theorem attach_skips_launch_witness :
    (launch_and_connect baseCfg
        { baseEnv with
          initialProbe := .response 200 (some (some "ws://x"))
          connectResult := some ⟨true, [⟨none, true, none, 1⟩]⟩ }
        false none mstate0).2.2.take 2 =
      [Event.probe 9222, Event.wsFetch] := by
  obtain ⟨rest, htr⟩ := (attach_skips_launch baseCfg
    { baseEnv with
      initialProbe := .response 200 (some (some "ws://x"))
      connectResult := some ⟨true, [⟨none, true, none, 1⟩]⟩ }
    false none mstate0 (by decide)).2
  rw [htr]
  rfl

/-! ### C3: launch timeout — failure kind and implicit termination -/

/-- C3 counterexample: with `AUTO_CLOSE_BROWSER = True`, an execution whose
port probe stays negative and whose readiness wait expires makes the failing
`launch_and_connect` call run `cleanup`, which DOES invoke the launcher's
process termination — contradicting "ProcessLauncher.terminate is never
implicitly called during that failing call". -/
theorem launch_timeout_terminates_counterexample :
    (launch_and_connect
          { baseCfg with autoCloseBrowser := true, customBrowserPath := "chrome" }
          { baseEnv with customPathIsFile := true } false none mstate0).1 =
        .error (.launchTimeout 30) ∧
      Event.terminateProcess ∈
        (launch_and_connect
          { baseCfg with autoCloseBrowser := true, customBrowserPath := "chrome" }
          { baseEnv with customPathIsFile := true } false none mstate0).2.2 := by
  constructor
  · rfl
  · decide

/-- C3 (amended): when the probe stays negative and the readiness wait
expires, `acquire` fails with the launch-timeout error; during that failing
call the launcher's terminate runs exactly when `AUTO_CLOSE_BROWSER` is set
(cleanup is invoked by the failure handler and gates termination on that
flag), and never otherwise. -/
theorem launch_timeout_spec (cfg : Config) (env : Env) (hasProxy : Bool)
    (ua : Option String) (s0 : MState) (p : String)
    (hprobe : test_cdp_connection env.initialProbe = false)
    (hpath : getBrowserPath cfg env = .ok p)
    (hlaunch : env.launchRaises = false)
    (hwait : env.waitReady = false) :
    (launch_and_connect cfg env hasProxy ua s0).1 =
        .error (.launchTimeout cfg.browserLaunchTimeout) ∧
      (Event.terminateProcess ∈ (launch_and_connect cfg env hasProxy ua s0).2.2 ↔
        cfg.autoCloseBrowser = true) := by
  have hbody : acquireBody cfg env hasProxy ua s0 =
      (.error (.launchTimeout cfg.browserLaunchTimeout),
        { s0 with debug_port := some cfg.debugPort },
        [Event.probe cfg.debugPort, Event.detectPath, Event.launchProcess cfg.debugPort,
          Event.waitForReady cfg.debugPort cfg.browserLaunchTimeout]) := by
    simp only [acquireBody]
    rw [if_neg (by simp [hprobe])]
    rw [hpath]
    have hl : launchBrowser cfg env =
        (.error (.launchTimeout cfg.browserLaunchTimeout),
          [Event.launchProcess cfg.debugPort,
            Event.waitForReady cfg.debugPort cfg.browserLaunchTimeout]) := by
      simp [launchBrowser, hlaunch, hwait]
    rw [hl]
    rfl
  unfold launch_and_connect
  rw [hbody]
  refine ⟨rfl, ?_⟩
  show Event.terminateProcess ∈
      [Event.probe cfg.debugPort, Event.detectPath, Event.launchProcess cfg.debugPort,
        Event.waitForReady cfg.debugPort cfg.browserLaunchTimeout] ++
        (cleanup cfg env { s0 with debug_port := some cfg.debugPort }).2 ↔
      cfg.autoCloseBrowser = true
  constructor
  · intro hm
    rcases List.mem_append.mp hm with h1 | h1
    · simp at h1
    · exact (cleanup_terminate_mem cfg env _).mp h1
  · intro hflag
    exact List.mem_append.mpr (Or.inr ((cleanup_terminate_mem cfg env _).mpr hflag))

/-- Witness for `launch_timeout_spec`: with the flag unset, the failing call
reports the launch timeout and never terminates the process. -/
theorem launch_timeout_spec_witness :
    (launch_and_connect { baseCfg with customBrowserPath := "chrome" }
          { baseEnv with customPathIsFile := true } false none mstate0).1 =
        .error (.launchTimeout 30) ∧
      Event.terminateProcess ∉
        (launch_and_connect { baseCfg with customBrowserPath := "chrome" }
          { baseEnv with customPathIsFile := true } false none mstate0).2.2 := by
  have h := launch_timeout_spec { baseCfg with customBrowserPath := "chrome" }
    { baseEnv with customPathIsFile := true } false none mstate0 "chrome"
    (by decide) rfl rfl rfl
  refine ⟨h.1, ?_⟩
  intro hmem
  have := h.2.mp hmem
  simp [baseCfg] at this

/-! ### C6: failures trigger full cleanup and re-raise unchanged -/

/-- C6: whenever the body of `launch_and_connect` raises, the call returns
that very error (nothing is swallowed, no context is returned), the manager's
two handle fields are cleared by the full cleanup the handler runs, and the
recorded run is the failing body's run followed by cleanup's. -/
theorem acquire_failure_cleans_and_reraises (cfg : Config) (env : Env)
    (hasProxy : Bool) (ua : Option String) (s0 : MState) (e : PyErr)
    (s1 : MState) (tr : List Event)
    (h : acquireBody cfg env hasProxy ua s0 = (.error e, s1, tr)) :
    (launch_and_connect cfg env hasProxy ua s0).1 = .error e ∧
      (launch_and_connect cfg env hasProxy ua s0).2.1.browser = none ∧
      (launch_and_connect cfg env hasProxy ua s0).2.1.browser_context = none ∧
      (launch_and_connect cfg env hasProxy ua s0).2.2 =
        tr ++ (cleanup cfg env s1).2 := by
  unfold launch_and_connect
  rw [h]
  refine ⟨rfl, ?_, ?_, rfl⟩ <;> rw [cleanup_state]

/-- Witness for `acquire_failure_cleans_and_reraises`: with no browser found
the path-detection error of `_get_browser_path` reaches the caller
unchanged. -/
theorem acquire_failure_witness :
    (launch_and_connect baseCfg baseEnv false none mstate0).1 =
      .error (.runtimeError "no browser found") := by
  exact (acquire_failure_cleans_and_reraises baseCfg baseEnv false none mstate0
    (.runtimeError "no browser found") ⟨none, none, some 9222⟩
    [Event.probe 9222, Event.detectPath] rfl).1

end CDPBrowser
